import Mathlib

/-!
Verification of the THANOS Evolution on-device controller
(`src/arduino/thanos_main/thanos_main.ino`) against its natural-language
specification.

The controller is shallowly embedded: Arduino `String`s become `List Char`,
machine `int`s become `Int`, the five-servo state becomes a record, and the
cooperative `loop()` becomes a function from an abstract per-pass input
(which time gates fired, the sensor readings, the pending serial line) to a
state transformer.  Hardware writes (`Servo.write`, WiFi transport) have no
bearing on the in-memory state and are not modelled; `Servo.attach/detach`
is modelled as a per-channel boolean.  Analog readings are modelled as
integers (the sketch stores `analogRead` results, which are integral, in
`float` variables; float rendering is abstracted by `toString`).
-/

set_option linter.unusedVariables false

/-- `NUM_FINGERS` from the sketch: five actuator channels. -/
def NUM_FINGERS : Nat := 5

/-- `SERVO_SPEED` from the sketch: degrees moved per servo update. -/
def SERVO_SPEED : Int := 5

/-- ASCII upper-casing, as Arduino `String.toUpperCase`. -/
def toUpperCase (s : List Char) : List Char := s.map Char.toUpper

/-- ASCII lower-casing, as Arduino `String.toLowerCase`. -/
def toLowerCase (s : List Char) : List Char := s.map Char.toLower

/-- Whitespace predicate used by Arduino `String.trim` (C `isspace`). -/
def isWhite (c : Char) : Bool := c.toNat == 32 || (9 ≤ c.toNat && c.toNat ≤ 13)

/-- Arduino `String.trim`: strip leading and trailing whitespace. -/
def trimWs (s : List Char) : List Char :=
  ((s.dropWhile isWhite).reverse.dropWhile isWhite).reverse

/-- One entry of the `poses[]` table: a name and five finger angles. -/
structure PoseDef where
  name : List Char
  angles : List Int
deriving DecidableEq

/-- The fixed `poses[]` table of the sketch, in declaration order. -/
def posesList : List PoseDef :=
  [ { name := "REST".data, angles := [0, 0, 0, 0, 0] },
    { name := "FIST".data, angles := [90, 180, 180, 180, 180] },
    { name := "OPEN".data, angles := [45, 0, 0, 0, 0] },
    { name := "ONE".data, angles := [90, 0, 180, 180, 180] },
    { name := "TWO".data, angles := [90, 0, 0, 180, 180] },
    { name := "THREE".data, angles := [90, 0, 0, 0, 180] },
    { name := "FOUR".data, angles := [90, 0, 0, 0, 0] },
    { name := "FIVE".data, angles := [45, 0, 0, 0, 0] },
    { name := "L_SHAPE".data, angles := [0, 0, 180, 180, 180] },
    { name := "BAD_FINGER".data, angles := [90, 180, 0, 180, 180] },
    { name := "SPIDERMAN".data, angles := [0, 0, 180, 180, 0] },
    { name := "EYY".data, angles := [0, 0, 180, 180, 180] },
    { name := "ROCK_ROLL".data, angles := [0, 0, 180, 180, 0] },
    { name := "TWO_JOINT".data, angles := [90, 180, 180, 90, 90] } ]

/-- The in-memory state of the controller: the global variables of the
sketch that the loop reads and writes.  `attached i` models whether servo
`i` is attached (`Servo.attach`/`Servo.detach`). -/
structure SysState where
  currentPose : List Int
  targetPose : List Int
  attached : Fin 5 → Bool
  emergencyStop : Bool
  movementActive : Bool
  currentPoseName : List Char
  gsrValue : Int
  emgValue : Int
  heartRate : Int
  spo2 : Int
  sessionID : List Char
  sessionStartTime : Nat

/-- The per-channel update of `updateServoPositions`: when the current
angle differs from the target, move by at most `speed` toward it
(`step = (diff > 0) ? min(SERVO_SPEED, diff) : max(-SERVO_SPEED, diff)`). -/
def stepToward (speed c t : Int) : Int :=
  if c ≠ t then
    c + (if 0 < t - c then min speed (t - c) else max (-speed) (t - c))
  else c

/-- `updateServoPositions`: apply `stepToward` on every channel and record
whether any channel still had to move this tick. -/
def updateServoPositions (s : SysState) : SysState :=
  { s with
    movementActive := (s.currentPose.zip s.targetPose).any fun p => p.1 != p.2,
    currentPose :=
      List.zipWith (fun c t => stepToward SERVO_SPEED c t) s.currentPose s.targetPose }

/-- The catalog scan inside `setPose`: the first table entry whose name
equals the upper-cased request, if any. -/
def lookupPose (poseName : List Char) : Option PoseDef :=
  posesList.find? fun p => p.name == toUpperCase poseName

/-- The target-write loop inside `setPose`
(`for j: targetPose[j] = poses[i].angles[j]`): the five target angles are
copied verbatim; no clamping or validation is applied. -/
def setPoseTargets (angles : List Int) (s : SysState) : SysState :=
  { s with targetPose := (List.range NUM_FINGERS).map fun j => angles.getD j 0 }

/-- `setPose`: upper-case the request, scan the catalog, and on a hit
record the pose name and copy its angles into the targets; on a miss the
state is unchanged (only an error message is printed). -/
def setPose (poseName : List Char) (s : SysState) : SysState :=
  match lookupPose poseName with
  | some p => setPoseTargets p.angles { s with currentPoseName := toUpperCase poseName }
  | none => s

/-- The raw values the sensors would deliver on one acquisition tick. -/
structure SensorRaw where
  gsrRaw : Int
  emgRaw : Int
  irValue : Int
  hrRaw : Int
  spo2Raw : Int
deriving DecidableEq

/-- `readSensors`: GSR and EMG are re-read unconditionally; heart rate and
SpO2 are only overwritten when the IR intensity exceeds the presence
threshold `50000`. -/
def readSensors (r : SensorRaw) (s : SysState) : SysState :=
  let s1 := { s with gsrValue := r.gsrRaw, emgValue := r.emgRaw }
  if r.irValue > 50000 then { s1 with heartRate := r.hrRaw, spo2 := r.spo2Raw } else s1

/-- `processCommand`: trim and lower-case the line, then dispatch.
`list` and `data` only print; `stop` sets the trip flag; `resume` clears
it; `pose <name>` forwards the remainder to `setPose`. -/
def processCommand (cmd : List Char) (s : SysState) : SysState :=
  let c := toLowerCase (trimWs cmd)
  if List.isPrefixOf ("pose ".data) c then setPose (c.drop 5) s
  else if c = "list".data then s
  else if c = "stop".data then { s with emergencyStop := true }
  else if c = "data".data then s
  else if c = "resume".data then { s with emergencyStop := false }
  else s

/-- `handleEmergencyStop`: detach every servo (the prints and the cooldown
`delay(1000)` do not change the state). -/
def handleEmergencyStop (s : SysState) : SysState :=
  { s with attached := fun _ => false }

/-- One pass of `loop()`, abstracted over timing: which `millis()` gates
fired this pass, the sensor readings, and the pending serial line (if
`Serial.available()`).  `uploadToCloud` builds and sends a payload but
never writes the state, so it needs no field here. -/
structure LoopInput where
  servoDue : Bool
  sensorDue : Bool
  sensorRaw : SensorRaw
  serial : Option (List Char)

/-- One pass of `loop()`: the trip flag is checked first and short-circuits
the whole pass; otherwise the gated tasks run in program order and the
serial command, when available, is processed last. -/
def loopPass (inp : LoopInput) (s : SysState) : SysState :=
  if s.emergencyStop then handleEmergencyStop s
  else
    let s1 := if inp.servoDue then updateServoPositions s else s
    let s2 := if inp.sensorDue then readSensors inp.sensorRaw s1 else s1
    match inp.serial with
    | some cmd => processCommand cmd s2
    | none => s2

/-- A whole run: fold `loop()` passes over a list of per-pass inputs. -/
def runLoop (inps : List LoopInput) (s : SysState) : SysState :=
  inps.foldl (fun st i => loopPass i st) s

/-- Ticks needed to close a distance `d` at step size `speed`:
`ceil(d / speed)` computed as `(d + speed - 1) / speed`. -/
def ceilTicks (speed : Int) (d : Nat) : Nat := (d + speed.toNat - 1) / speed.toNat

/-- `n` repetitions of the per-channel motion step toward target `t`. -/
def stepIter (speed t : Int) (n : Nat) (c : Int) : Int :=
  (fun x => stepToward speed x t)^[n] c

/-- The bounded-rate linear-interpolation contract for one channel:
convergence in exactly `ceil(|t - c| / speed)` ticks, each tick moving at
most `speed`, the last tick moving by the remainder when it is nonzero,
and no overshoot (the angle stays between start and target). -/
def motionSpec (speed c t : Int) : Prop :=
  stepIter speed t (ceilTicks speed (t - c).natAbs) c = t
  ∧ (∀ n, n < ceilTicks speed (t - c).natAbs → stepIter speed t n c ≠ t)
  ∧ (∀ n, (stepIter speed t (n + 1) c - stepIter speed t n c).natAbs ≤ speed.toNat)
  ∧ (∀ n, min c t ≤ stepIter speed t n c ∧ stepIter speed t n c ≤ max c t)
  ∧ ((t - c).natAbs % speed.toNat ≠ 0 →
      (stepIter speed t (ceilTicks speed (t - c).natAbs) c
        - stepIter speed t (ceilTicks speed (t - c).natAbs - 1) c).natAbs
        = (t - c).natAbs % speed.toNat)

/-- The state after `setup()`: servos attached and at angle 0, no trip,
pose name `REST`, sensor values zeroed. -/
def bootState : SysState :=
  { currentPose := [0, 0, 0, 0, 0], targetPose := [0, 0, 0, 0, 0],
    attached := fun _ => true, emergencyStop := false, movementActive := false,
    currentPoseName := "REST".data, gsrValue := 0, emgValue := 0,
    heartRate := 0, spo2 := 0, sessionID := [], sessionStartTime := 0 }

/-- The serial argument naming the FIST pose, in lower case. -/
def fistCmd : List Char := "fist".data

/-- Boot state after commanding the FIST pose: targets `[90,180,180,180,180]`. -/
def fistState : SysState := setPose fistCmd bootState

/-- `n` servo-update ticks applied to a state. -/
def ticksN (n : Nat) (s : SysState) : SysState := updateServoPositions^[n] s

/-- An out-of-range five-angle vector used to probe for clamping. -/
def badAngles : List Int := [200, -5, 0, 0, 0]

/-- A sensor reading bundle of all zeroes, for idle passes. -/
def idleRaw : SensorRaw := ⟨0, 0, 0, 0, 0⟩

/-- A loop pass where no time gate fires and no serial data is pending. -/
def idleInput : LoopInput := ⟨false, false, idleRaw, none⟩

/-- The serial line that clears the trip flag. -/
def resumeCmd : List Char := "resume".data

/-- A loop pass whose serial line carries the `resume` command. -/
def resumeInput : LoopInput := ⟨false, false, idleRaw, some resumeCmd⟩

/-- A tripped state: the interlock fired while channel 1 was at 100 of
target 180 (the scenario of the specification). -/
def trippedState : SysState :=
  { bootState with currentPose := [0, 100, 0, 0, 0],
                   targetPose := [0, 180, 0, 0, 0], emergencyStop := true }

/-- A five-entry angle list whose members all lie in `[0,180]`. -/
def anglesOK (l : List Int) : Prop :=
  l.length = NUM_FINGERS ∧ ∀ x ∈ l, 0 ≤ x ∧ x ≤ 180

/-- The angle invariant: both the current and the target angles of every
channel lie in `[0,180]`. -/
def angleInv (s : SysState) : Prop :=
  anglesOK s.currentPose ∧ anglesOK s.targetPose

/-- The FIST entry of the catalog. -/
def fistPose : PoseDef := { name := "FIST".data, angles := [90, 180, 180, 180, 180] }

/-- `createDataPayload`: the JSON telemetry string the sketch assembles,
field by field, in source order. -/
def createDataPayload (now : Nat) (s : SysState) : List Char :=
  let json := "\x7b".data
  let json := json ++ "\"session_id\":\"".data ++ s.sessionID ++ "\",".data
  let json := json ++ "\"timestamp\":".data ++ (toString now).data ++ ",".data
  let json := json ++ "\"pose\":\"".data ++ s.currentPoseName ++ "\",".data
  let json := json ++ "\"servo_positions\":[".data
    ++ (toString (s.currentPose.getD 0 0)).data ++ ",".data
    ++ (toString (s.currentPose.getD 1 0)).data ++ ",".data
    ++ (toString (s.currentPose.getD 2 0)).data ++ ",".data
    ++ (toString (s.currentPose.getD 3 0)).data ++ ",".data
    ++ (toString (s.currentPose.getD 4 0)).data ++ "],".data
  let json := json ++ "\"gsr\":".data ++ (toString s.gsrValue).data ++ ",".data
  let json := json ++ "\"emg\":".data ++ (toString s.emgValue).data ++ ",".data
  let json := json ++ "\"heart_rate\":".data ++ (toString s.heartRate).data ++ ",".data
  let json := json ++ "\"spo2\":".data ++ (toString s.spo2).data ++ ",".data
  let json := json ++ "\"session_duration\":".data
    ++ (toString ((now - s.sessionStartTime) / 1000)).data
  json ++ "\x7d".data

/-- The spec's field list: the nine telemetry fields in their required
order, paired with their rendered values. -/
def payloadFields (now : Nat) (s : SysState) : List (List Char × List Char) :=
  [ ("session_id".data, "\"".data ++ s.sessionID ++ "\"".data),
    ("timestamp".data, (toString now).data),
    ("pose".data, "\"".data ++ s.currentPoseName ++ "\"".data),
    ("servo_positions".data,
      "[".data ++ (toString (s.currentPose.getD 0 0)).data ++ ",".data
        ++ (toString (s.currentPose.getD 1 0)).data ++ ",".data
        ++ (toString (s.currentPose.getD 2 0)).data ++ ",".data
        ++ (toString (s.currentPose.getD 3 0)).data ++ ",".data
        ++ (toString (s.currentPose.getD 4 0)).data ++ "]".data),
    ("gsr".data, (toString s.gsrValue).data),
    ("emg".data, (toString s.emgValue).data),
    ("heart_rate".data, (toString s.heartRate).data),
    ("spo2".data, (toString s.spo2).data),
    ("session_duration".data, (toString ((now - s.sessionStartTime) / 1000)).data) ]

/-- A generic JSON object renderer over an ordered field list. -/
def renderFields : List (List Char × List Char) → List Char
  | [] => []
  | [f] => "\"".data ++ f.1 ++ "\":".data ++ f.2
  | f :: g :: rest =>
      "\"".data ++ f.1 ++ "\":".data ++ f.2 ++ ",".data ++ renderFields (g :: rest)

/-- A JSON object with the given fields in the given order. -/
def renderJson (fs : List (List Char × List Char)) : List Char :=
  "\x7b".data ++ renderFields fs ++ "\x7d".data

/-- The spec's required key order for the telemetry payload. -/
def telemetryFieldOrder : List (List Char) :=
  [ "session_id".data, "timestamp".data, "pose".data, "servo_positions".data,
    "gsr".data, "emg".data, "heart_rate".data, "spo2".data,
    "session_duration".data ]

/-! ## Motion interpolation lemmas (claim C2) -/

/-- One motion step shortens the distance to the target by exactly the
step size (truncated at zero). -/
lemma stepToward_dist (speed c t : Int) (hs : 0 < speed) :
    (t - stepToward speed c t).natAbs = (t - c).natAbs - speed.toNat := by
  unfold stepToward
  by_cases h : c = t
  · simp [h]
  · rw [if_pos h]
    by_cases hd : 0 < t - c
    · rw [if_pos hd]; omega
    · rw [if_neg hd]; omega

/-- One motion step stays between the current angle and the target. -/
lemma stepToward_between (speed c t : Int) (hs : 0 ≤ speed) :
    min c t ≤ stepToward speed c t ∧ stepToward speed c t ≤ max c t := by
  unfold stepToward
  by_cases h : c = t
  · simp [h]
  · rw [if_pos h]
    by_cases hd : 0 < t - c
    · rw [if_pos hd]; omega
    · rw [if_neg hd]; omega

/-- One motion step moves by exactly `min speed distance`. -/
lemma stepToward_move (speed c t : Int) (hs : 0 < speed) :
    (stepToward speed c t - c).natAbs = min speed.toNat (t - c).natAbs := by
  unfold stepToward
  by_cases h : c = t
  · simp [h]
  · rw [if_pos h]
    by_cases hd : 0 < t - c
    · rw [if_pos hd]; omega
    · rw [if_neg hd]; omega

lemma stepIter_succ (speed t : Int) (n : Nat) (c : Int) :
    stepIter speed t (n + 1) c = stepIter speed t n (stepToward speed c t) := by
  unfold stepIter
  rw [Function.iterate_succ_apply]

lemma stepIter_succ' (speed t : Int) (n : Nat) (c : Int) :
    stepIter speed t (n + 1) c = stepToward speed (stepIter speed t n c) t := by
  unfold stepIter
  rw [Function.iterate_succ_apply']

/-- After `n` motion steps the distance has shrunk by `n` step sizes. -/
lemma stepIter_dist (speed c t : Int) (hs : 0 < speed) (n : Nat) :
    (t - stepIter speed t n c).natAbs = (t - c).natAbs - n * speed.toNat := by
  induction n generalizing c with
  | zero => simp [stepIter]
  | succ n ih =>
      rw [stepIter_succ, ih, stepToward_dist speed c t hs, Nat.add_mul, Nat.one_mul]
      omega

/-- `ceil(d / s) * s` covers `d`. -/
lemma ceil_mul_ge (d s : Nat) (hs : 0 < s) : d ≤ ((d + s - 1) / s) * s := by
  have h := Nat.div_add_mod (d + s - 1) s
  have hr := Nat.mod_lt (d + s - 1) hs
  set q := (d + s - 1) / s with hq
  set r := (d + s - 1) % s with hrd
  rw [Nat.mul_comm]
  generalize hP : s * q = P at h ⊢
  omega

/-- Fewer than `ceil(d / s)` steps of size `s` do not cover `d`. -/
lemma lt_ceil_mul_lt (d s : Nat) (hs : 0 < s) (n : Nat) (hn : n < (d + s - 1) / s) :
    n * s < d := by
  have h := Nat.div_add_mod (d + s - 1) s
  have hr := Nat.mod_lt (d + s - 1) hs
  set q := (d + s - 1) / s with hq
  set r := (d + s - 1) % s with hrd
  have h2 : (n + 1) * s ≤ q * s := Nat.mul_le_mul_right s hn
  rw [Nat.add_mul, Nat.one_mul] at h2
  rw [Nat.mul_comm q s] at h2
  generalize hP : s * q = P at h h2
  generalize hA : n * s = A at h2 ⊢
  omega

/-- When the remainder is nonzero, the ceiling is the floor plus one. -/
lemma ceil_eq_floor_succ (d s : Nat) (hs : 0 < s) (hr : d % s ≠ 0) :
    (d + s - 1) / s = d / s + 1 := by
  have h1 := Nat.div_add_mod d s
  have h2 := Nat.mod_lt d hs
  have hx : d + s - 1 = (d % s - 1) + s * (d / s + 1) := by
    rw [Nat.mul_add, Nat.mul_one]
    generalize hP : s * (d / s) = P at h1 ⊢
    omega
  rw [hx, Nat.add_mul_div_left _ _ hs, Nat.div_eq_of_lt (by omega)]
  omega

/-- The distance left before the very last tick is exactly `d % s`. -/
lemma last_gap (d s : Nat) (hs : 0 < s) (hr : d % s ≠ 0) :
    min s (d - (((d + s - 1) / s) - 1) * s) = d % s := by
  rw [ceil_eq_floor_succ d s hs hr]
  simp only [Nat.add_sub_cancel]
  have h1 := Nat.div_add_mod d s
  have h2 := Nat.mod_lt d hs
  rw [Nat.mul_comm]
  generalize hP : s * (d / s) = P at h1 ⊢
  omega

/-- C2: for every channel with current angle `c` and target `t` in
`[0,180]` and step size `speed > 0`, the per-channel update of
`updateServoPositions` reaches `t` in exactly `ceil(|t - c| / speed)`
ticks and not earlier, moves at most `speed` per tick, never leaves the
interval spanned by `c` and `t` (no overshoot), and the final tick's step
is the remainder `|t - c| mod speed` when that remainder is nonzero. -/
theorem motion_converges (speed c t : Int) (hs : 0 < speed)
    (hc : 0 ≤ c ∧ c ≤ 180) (ht : 0 ≤ t ∧ t ≤ 180) : motionSpec speed c t := by
  have hs' : 0 < speed.toNat := by omega
  have hck : ceilTicks speed (t - c).natAbs
      = ((t - c).natAbs + speed.toNat - 1) / speed.toNat := rfl
  have hbetween : ∀ n, min c t ≤ stepIter speed t n c ∧ stepIter speed t n c ≤ max c t := by
    intro n
    induction n with
    | zero => simp only [stepIter, Function.iterate_zero, id_eq]; omega
    | succ n ih =>
        rw [stepIter_succ']
        have hb := stepToward_between speed (stepIter speed t n c) t (by omega)
        omega
  unfold motionSpec
  rw [hck]
  refine ⟨?_, ?_, ?_, hbetween, ?_⟩
  · have hd := stepIter_dist speed c t hs
      (((t - c).natAbs + speed.toNat - 1) / speed.toNat)
    have hge := ceil_mul_ge (t - c).natAbs speed.toNat hs'
    omega
  · intro n hn heq
    have hd := stepIter_dist speed c t hs n
    rw [heq] at hd
    simp only [sub_self, Int.natAbs_zero] at hd
    have hlt := lt_ceil_mul_lt (t - c).natAbs speed.toNat hs' n hn
    omega
  · intro n
    rw [stepIter_succ', stepToward_move speed (stepIter speed t n c) t hs]
    omega
  · intro hrem
    have hceil := ceil_eq_floor_succ (t - c).natAbs speed.toNat hs' hrem
    have hk1 : 1 ≤ ((t - c).natAbs + speed.toNat - 1) / speed.toNat := by
      rw [hceil]; exact Nat.le_add_left 1 _
    have hsplit : ((t - c).natAbs + speed.toNat - 1) / speed.toNat
        = (((t - c).natAbs + speed.toNat - 1) / speed.toNat - 1) + 1 :=
      (Nat.sub_add_cancel hk1).symm
    nth_rewrite 1 [hsplit]
    rw [stepIter_succ',
      stepToward_move speed
        (stepIter speed t (((t - c).natAbs + speed.toNat - 1) / speed.toNat - 1) c) t hs,
      stepIter_dist speed c t hs]
    exact last_gap (t - c).natAbs speed.toNat hs' hrem

/-- Witness for C2 at step size 5, start angle 100, target 180. -/
theorem motion_converges_witness :
    ((0 : Int) < 5 ∧ ((0 : Int) ≤ 100 ∧ (100 : Int) ≤ 180)
      ∧ ((0 : Int) ≤ 180 ∧ (180 : Int) ≤ 180))
    ∧ motionSpec 5 100 180 :=
  ⟨by decide, motion_converges 5 100 180 (by decide) (by decide) (by decide)⟩

/-! ## The FIST scenario (claim C4) -/

/-- C4 counterexample: with pose FIST, start `[0,0,0,0,0]` and step 5,
channel 1 (difference 180) is still at 90 after 18 ticks, so it is false
that all five channels have reached their targets after 18 ticks. -/
theorem fist_not_done_after_18 :
    (ticksN 18 fistState).currentPose.getD 1 0 = 90 ∧ ((90 : Int) ≠ 180) := by
  decide

/-- C4 amended: all five channels reach their FIST targets exactly after
36 ticks and not earlier; after 17 ticks channel 0 is at 85 and channel 1
is at 85; channel 0 (difference 90) reaches its target 90 at tick 18. -/
theorem fist_convergence :
    (ticksN 36 fistState).currentPose = [90, 180, 180, 180, 180]
    ∧ (ticksN 35 fistState).currentPose ≠ [90, 180, 180, 180, 180]
    ∧ (ticksN 18 fistState).currentPose.getD 0 0 = 90
    ∧ (ticksN 17 fistState).currentPose.getD 0 0 = 85
    ∧ (ticksN 17 fistState).currentPose.getD 1 0 = 85 := by
  decide

/-! ## Target setting (claim C5) -/

/-- C5 counterexample: the target-write loop of `setPose` stores
out-of-range components verbatim — the input `[200, -5, 0, 0, 0]` is not
clamped into `[0,180]`. -/
theorem setTargets_does_not_clamp :
    (setPoseTargets badAngles bootState).targetPose = [200, -5, 0, 0, 0]
    ∧ ¬ (∀ x ∈ (setPoseTargets badAngles bootState).targetPose, 0 ≤ x ∧ x ≤ 180) := by
  decide

/-- All catalog poses carry five angles, each within `[0,180]`. -/
lemma catalog_angles_ok :
    ∀ q ∈ posesList,
      ∀ x ∈ (List.range NUM_FINGERS).map (fun j => q.angles.getD j 0),
        0 ≤ x ∧ x ≤ 180 := by
  decide

/-- C5 amended: the target-setting operation copies its input verbatim
(no clamping, no rejection); nevertheless, after any `setPose` every
target angle lies in `[0,180]`, because the only vectors the program ever
passes to the write loop are catalog entries, which all lie in `[0,180]`,
and an unmatched name leaves the targets unchanged. -/
theorem setPose_targets_in_range (s : SysState) (name : List Char)
    (h : ∀ x ∈ s.targetPose, 0 ≤ x ∧ x ≤ 180) :
    (∀ a, (setPoseTargets a s).targetPose
      = (List.range NUM_FINGERS).map fun j => a.getD j 0)
    ∧ (∀ x ∈ (setPose name s).targetPose, 0 ≤ x ∧ x ≤ 180) := by
  constructor
  · intro a; rfl
  · unfold setPose
    cases hfind : lookupPose name with
    | none => simpa using h
    | some p =>
        have hp : p ∈ posesList := by
          unfold lookupPose at hfind
          exact List.mem_of_find?_eq_some hfind
        simpa [setPoseTargets] using catalog_angles_ok p hp

/-- Witness for C5's amended claim at the boot state and the FIST name. -/
theorem setPose_targets_in_range_witness :
    (∀ x ∈ bootState.targetPose, 0 ≤ x ∧ x ≤ 180)
    ∧ (∀ x ∈ (setPose fistCmd bootState).targetPose, 0 ≤ x ∧ x ≤ 180) :=
  ⟨by decide, (setPose_targets_in_range bootState fistCmd (by decide)).2⟩

/-! ## Presence-gated biosignal sampling (claim C8) -/

/-- C8: when the IR intensity is at or below the presence threshold
`50000`, `readSensors` leaves heart rate and SpO2 exactly as they were,
while GSR and EMG are re-read unconditionally. -/
theorem sensors_presence_gated (r : SensorRaw) (s : SysState)
    (h : r.irValue ≤ 50000) :
    (readSensors r s).heartRate = s.heartRate
    ∧ (readSensors r s).spo2 = s.spo2
    ∧ (readSensors r s).gsrValue = r.gsrRaw
    ∧ (readSensors r s).emgValue = r.emgRaw := by
  unfold readSensors
  rw [if_neg (by omega)]
  exact ⟨rfl, rfl, rfl, rfl⟩

/-- Witness for C8: a below-threshold tick at the boot state. -/
theorem sensors_presence_gated_witness :
    ((⟨512, 300, 40000, 72, 98⟩ : SensorRaw).irValue ≤ 50000)
    ∧ (readSensors ⟨512, 300, 40000, 72, 98⟩ bootState).heartRate = bootState.heartRate
    ∧ (readSensors ⟨512, 300, 40000, 72, 98⟩ bootState).spo2 = bootState.spo2
    ∧ (readSensors ⟨512, 300, 40000, 72, 98⟩ bootState).gsrValue = 512
    ∧ (readSensors ⟨512, 300, 40000, 72, 98⟩ bootState).emgValue = 300 :=
  ⟨by decide, sensors_presence_gated ⟨512, 300, 40000, 72, 98⟩ bootState (by decide)⟩

/-! ## The tripped loop (claims C1 and C3) -/

/-- A pass that begins tripped reduces to the emergency handler. -/
lemma loopPass_tripped (inp : LoopInput) (s : SysState)
    (h : s.emergencyStop = true) : loopPass inp s = handleEmergencyStop s := by
  unfold loopPass
  rw [if_pos h]

lemma runLoop_cons (i : LoopInput) (is : List LoopInput) (s : SysState) :
    runLoop (i :: is) s = runLoop is (loopPass i s) := rfl

/-- Once the handler has run on a tripped state, every further pass is a
no-op: the state is already detached and still tripped. -/
lemma runLoop_tripped_detached (inps : List LoopInput) (s : SysState)
    (h : s.emergencyStop = true) :
    runLoop inps (handleEmergencyStop s) = handleEmergencyStop s := by
  induction inps with
  | nil => rfl
  | cons i is ih =>
      rw [runLoop_cons, loopPass_tripped i (handleEmergencyStop s) h]
      exact ih

/-- C1: once the trip flag is observed at the top of a pass, that pass and
every subsequent pass take only the fail-safe path: the whole run equals
the emergency handler (so `updateServoPositions` is never executed), all
five channels end detached, no current or target angle changes, and the
tripped state persists — for every sequence of inputs, hence regardless of
pending target mismatches. -/
theorem trip_latches (s : SysState) (h : s.emergencyStop = true)
    (inp : LoopInput) (inps : List LoopInput) :
    loopPass inp s = handleEmergencyStop s
    ∧ runLoop (inp :: inps) s = handleEmergencyStop s
    ∧ (∀ i : Fin 5, (runLoop (inp :: inps) s).attached i = false)
    ∧ (runLoop (inp :: inps) s).currentPose = s.currentPose
    ∧ (runLoop (inp :: inps) s).targetPose = s.targetPose
    ∧ (runLoop (inp :: inps) s).emergencyStop = true := by
  have h1 := loopPass_tripped inp s h
  have h2 : runLoop (inp :: inps) s = handleEmergencyStop s := by
    rw [runLoop_cons, h1]
    exact runLoop_tripped_detached inps s h
  exact ⟨h1, h2, fun i => by rw [h2]; rfl, by rw [h2]; rfl, by rw [h2]; rfl,
    by rw [h2]; exact h⟩

/-- Witness for C1: the trip-at-100-of-180 scenario, one subsequent pass. -/
theorem trip_latches_witness :
    trippedState.emergencyStop = true
    ∧ runLoop [idleInput] trippedState = handleEmergencyStop trippedState :=
  ⟨rfl, (trip_latches trippedState rfl idleInput []).2.1⟩

/-- C3: while the trip flag is set, the pass returns before the serial
intake, so the pass result does not depend on the pass input at all — in
particular a pending `resume` line is never read — the flag is never
cleared from within the loop, and the tripped state persists for the whole
rest of the run. -/
theorem tripped_blocks_commands (s : SysState) (h : s.emergencyStop = true)
    (inp inp' : LoopInput) (inps : List LoopInput) :
    loopPass inp s = loopPass inp' s
    ∧ (loopPass inp s).emergencyStop = true
    ∧ (runLoop inps s).emergencyStop = true := by
  have h1 := loopPass_tripped inp s h
  refine ⟨h1.trans (loopPass_tripped inp' s h).symm, by rw [h1]; exact h, ?_⟩
  cases inps with
  | nil => exact h
  | cons i is =>
      rw [runLoop_cons, loopPass_tripped i s h, runLoop_tripped_detached is s h]
      exact h

/-- Witness for C3: a pending `resume` line is ignored while tripped. -/
theorem tripped_blocks_commands_witness :
    trippedState.emergencyStop = true
    ∧ (runLoop [resumeInput] trippedState).emergencyStop = true :=
  ⟨rfl, (tripped_blocks_commands trippedState rfl resumeInput idleInput [resumeInput]).2.2⟩

/-! ## Attachment monotonicity and the resume command (claim C9) -/

lemma attached_update (s : SysState) :
    (updateServoPositions s).attached = s.attached := rfl

lemma attached_read (r : SensorRaw) (s : SysState) :
    (readSensors r s).attached = s.attached := by
  unfold readSensors
  split <;> rfl

lemma attached_setPose (n : List Char) (s : SysState) :
    (setPose n s).attached = s.attached := by
  unfold setPose
  cases lookupPose n <;> rfl

lemma attached_process (c : List Char) (s : SysState) :
    (processCommand c s).attached = s.attached := by
  unfold processCommand
  dsimp only
  split_ifs <;> first | rfl | apply attached_setPose

/-- No branch of a loop pass ever re-attaches a channel. -/
lemma attached_pass_mono (inp : LoopInput) (s : SysState) (i : Fin 5)
    (h : (loopPass inp s).attached i = true) : s.attached i = true := by
  unfold loopPass at h
  by_cases he : s.emergencyStop
  · rw [if_pos he] at h
    simp [handleEmergencyStop] at h
  · rw [if_neg he] at h
    cases hser : inp.serial <;>
      rw [hser] at h <;>
      by_cases h1 : inp.servoDue <;> by_cases h2 : inp.sensorDue <;>
      simp only [h1, h2, if_true, if_false, attached_read, attached_update,
        attached_process] at h <;>
      exact h

lemma attached_run_mono (inps : List LoopInput) (s : SysState) (i : Fin 5)
    (h : (runLoop inps s).attached i = true) : s.attached i = true := by
  induction inps generalizing s with
  | nil => exact h
  | cons inp is ih => exact attached_pass_mono inp s i (ih (loopPass inp s) h)

/-- C9: processing `resume` only clears the trip flag — every other field
(current and target angles, pose name, sensor values, attachment) is left
exactly as it was; and no loop pass ever re-attaches a servo channel, so
after a trip has detached them only startup initialization could re-attach. -/
theorem resume_only_clears_flag (s : SysState) (inps : List LoopInput) (i : Fin 5) :
    processCommand resumeCmd s = { s with emergencyStop := false }
    ∧ ((runLoop inps s).attached i = true → s.attached i = true) :=
  ⟨rfl, attached_run_mono inps s i⟩

/-- Witness for C9: resume at the boot state leaves everything but the
flag; an attached channel after a pass was attached before it. -/
theorem resume_only_clears_flag_witness :
    (runLoop [idleInput] bootState).attached 0 = true
    ∧ bootState.attached 0 = true :=
  ⟨by decide, (resume_only_clears_flag bootState [idleInput] 0).2 (by decide)⟩

/-! ## The angle invariant (claim C6) -/

lemma zipWith_step_ok : ∀ (c t : List Int),
    (∀ x ∈ c, 0 ≤ x ∧ x ≤ 180) → (∀ x ∈ t, 0 ≤ x ∧ x ≤ 180) →
    ∀ x ∈ List.zipWith (fun a b => stepToward SERVO_SPEED a b) c t,
      0 ≤ x ∧ x ≤ 180 := by
  intro c
  induction c with
  | nil => intro t _ _ x hx; simp at hx
  | cons a c ih =>
      intro t hc ht x hx
      cases t with
      | nil => simp at hx
      | cons b t =>
          simp only [List.zipWith_cons_cons, List.mem_cons] at hx
          rcases hx with rfl | hx
          · have hb := stepToward_between SERVO_SPEED a b (by decide)
            have ha' := hc a (by simp)
            have hb' := ht b (by simp)
            omega
          · exact ih t (fun y hy => hc y (by simp [hy]))
              (fun y hy => ht y (by simp [hy])) x hx

lemma angleInv_update (s : SysState) (h : angleInv s) :
    angleInv (updateServoPositions s) := by
  obtain ⟨⟨hcl, hcb⟩, htOK⟩ := h
  refine ⟨⟨?_, ?_⟩, htOK⟩
  · show (List.zipWith _ s.currentPose s.targetPose).length = NUM_FINGERS
    rw [List.length_zipWith, hcl, htOK.1]
    exact min_self _
  · exact zipWith_step_ok s.currentPose s.targetPose hcb htOK.2

lemma currentPose_setPose (n : List Char) (s : SysState) :
    (setPose n s).currentPose = s.currentPose := by
  unfold setPose
  cases lookupPose n <;> rfl

lemma anglesOK_setPose (n : List Char) (s : SysState) (h : anglesOK s.targetPose) :
    anglesOK (setPose n s).targetPose := by
  unfold setPose
  cases hfind : lookupPose n with
  | none => exact h
  | some p =>
      have hp : p ∈ posesList := by
        unfold lookupPose at hfind
        exact List.mem_of_find?_eq_some hfind
      constructor
      · simp [setPoseTargets, NUM_FINGERS]
      · simpa [setPoseTargets] using catalog_angles_ok p hp

lemma angleInv_process (c : List Char) (s : SysState) (h : angleInv s) :
    angleInv (processCommand c s) := by
  unfold processCommand
  dsimp only
  split_ifs
  all_goals first
    | exact h
    | exact ⟨by rw [currentPose_setPose]; exact h.1, anglesOK_setPose _ _ h.2⟩

lemma angleInv_read (r : SensorRaw) (s : SysState) (h : angleInv s) :
    angleInv (readSensors r s) := by
  unfold readSensors
  dsimp only
  split <;> exact h

lemma angleInv_pass (inp : LoopInput) (s : SysState) (h : angleInv s) :
    angleInv (loopPass inp s) := by
  unfold loopPass
  by_cases he : s.emergencyStop
  · rw [if_pos he]; exact h
  · rw [if_neg he]
    dsimp only
    cases hser : inp.serial <;>
      by_cases h1 : inp.servoDue <;> by_cases h2 : inp.sensorDue <;>
      simp only [h1, h2, if_true, if_false]
    all_goals first
      | exact h
      | exact angleInv_update s h
      | exact angleInv_read _ _ h
      | exact angleInv_read _ _ (angleInv_update s h)
      | exact angleInv_process _ _ h
      | exact angleInv_process _ _ (angleInv_update s h)
      | exact angleInv_process _ _ (angleInv_read _ _ h)
      | exact angleInv_process _ _ (angleInv_read _ _ (angleInv_update s h))

lemma angleInv_run (inps : List LoopInput) (s : SysState) (h : angleInv s) :
    angleInv (runLoop inps s) := by
  induction inps generalizing s with
  | nil => exact h
  | cons inp is ih => exact ih (loopPass inp s) (angleInv_pass inp s h)

/-- C6: from any state whose current and target angles lie in `[0,180]`,
every sequence of loop passes — ticks, pose commands, any serial input —
keeps every channel's current angle within `[0,180]`; and once tripped the
current angles do not change at all, so each stays trivially within the
interval bounded by its value at trip time. -/
theorem angles_always_bounded (s : SysState) (h : angleInv s)
    (inps : List LoopInput) :
    angleInv (runLoop inps s)
    ∧ (s.emergencyStop = true → (runLoop inps s).currentPose = s.currentPose) := by
  refine ⟨angleInv_run inps s h, fun he => ?_⟩
  cases inps with
  | nil => rfl
  | cons i is =>
      rw [runLoop_cons, loopPass_tripped i s he, runLoop_tripped_detached is s he]
      rfl

/-- Witness for C6 at the tripped scenario state. -/
theorem angles_always_bounded_witness :
    (angleInv trippedState ∧ trippedState.emergencyStop = true)
    ∧ (angleInv (runLoop [idleInput] trippedState)
        ∧ (trippedState.emergencyStop = true →
            (runLoop [idleInput] trippedState).currentPose = trippedState.currentPose)) :=
  ⟨⟨by unfold angleInv anglesOK; decide, rfl⟩,
    angles_always_bounded trippedState (by unfold angleInv anglesOK; decide) [idleInput]⟩

/-! ## Telemetry payload shape (claim C10) -/

lemma chars0 : ("\x7b").data = ['\x7b'] := rfl
lemma chars1 : ("\"session_id\":\"").data = ['\"', 's', 'e', 's', 's', 'i', 'o', 'n', '_', 'i', 'd', '\"', ':', '\"'] := rfl
lemma chars2 : ("\",").data = ['\"', ','] := rfl
lemma chars3 : ("\"timestamp\":").data = ['\"', 't', 'i', 'm', 'e', 's', 't', 'a', 'm', 'p', '\"', ':'] := rfl
lemma chars4 : (",").data = [','] := rfl
lemma chars5 : ("\"pose\":\"").data = ['\"', 'p', 'o', 's', 'e', '\"', ':', '\"'] := rfl
lemma chars6 : ("\"servo_positions\":[").data = ['\"', 's', 'e', 'r', 'v', 'o', '_', 'p', 'o', 's', 'i', 't', 'i', 'o', 'n', 's', '\"', ':', '['] := rfl
lemma chars7 : ("],").data = [']', ','] := rfl
lemma chars8 : ("\"gsr\":").data = ['\"', 'g', 's', 'r', '\"', ':'] := rfl
lemma chars9 : ("\"emg\":").data = ['\"', 'e', 'm', 'g', '\"', ':'] := rfl
lemma chars10 : ("\"heart_rate\":").data = ['\"', 'h', 'e', 'a', 'r', 't', '_', 'r', 'a', 't', 'e', '\"', ':'] := rfl
lemma chars11 : ("\"spo2\":").data = ['\"', 's', 'p', 'o', '2', '\"', ':'] := rfl
lemma chars12 : ("\"session_duration\":").data = ['\"', 's', 'e', 's', 's', 'i', 'o', 'n', '_', 'd', 'u', 'r', 'a', 't', 'i', 'o', 'n', '\"', ':'] := rfl
lemma chars13 : ("\x7d").data = ['\x7d'] := rfl
lemma chars14 : ("\"").data = ['\"'] := rfl
lemma chars15 : ("\":").data = ['\"', ':'] := rfl
lemma chars16 : ("[").data = ['['] := rfl
lemma chars17 : ("]").data = [']'] := rfl
lemma chars18 : ("session_id").data = ['s', 'e', 's', 's', 'i', 'o', 'n', '_', 'i', 'd'] := rfl
lemma chars19 : ("timestamp").data = ['t', 'i', 'm', 'e', 's', 't', 'a', 'm', 'p'] := rfl
lemma chars20 : ("pose").data = ['p', 'o', 's', 'e'] := rfl
lemma chars21 : ("servo_positions").data = ['s', 'e', 'r', 'v', 'o', '_', 'p', 'o', 's', 'i', 't', 'i', 'o', 'n', 's'] := rfl
lemma chars22 : ("gsr").data = ['g', 's', 'r'] := rfl
lemma chars23 : ("emg").data = ['e', 'm', 'g'] := rfl
lemma chars24 : ("heart_rate").data = ['h', 'e', 'a', 'r', 't', '_', 'r', 'a', 't', 'e'] := rfl
lemma chars25 : ("spo2").data = ['s', 'p', 'o', '2'] := rfl
lemma chars26 : ("session_duration").data = ['s', 'e', 's', 's', 'i', 'o', 'n', '_', 'd', 'u', 'r', 'a', 't', 'i', 'o', 'n'] := rfl

/-- C10: the telemetry payload the sketch builds is exactly the JSON
object whose fields are the nine spec fields in the spec's order —
session identifier, elapsed milliseconds, pose name, the five servo
angles, gsr, emg, heart rate, spo2, session duration — none omitted, none
reordered. -/
theorem payload_nine_fields (now : Nat) (s : SysState) :
    createDataPayload now s = renderJson (payloadFields now s)
    ∧ (payloadFields now s).map Prod.fst = telemetryFieldOrder := by
  constructor
  · simp only [createDataPayload, renderJson, renderFields, payloadFields,
      chars0, chars1, chars2, chars3, chars4, chars5, chars6, chars7, chars8, chars9, chars10, chars11, chars12, chars13, chars14, chars15, chars16, chars17, chars18, chars19, chars20, chars21, chars22, chars23, chars24, chars25, chars26,
      List.cons_append, List.nil_append, List.append_assoc, List.append_nil]
  · rfl

/-! ## Case-insensitive pose lookup (claim C7) -/

/-- C7: pose lookup is case-insensitive exact matching.  Catalog names are
upper-case fixed points, lookup depends only on the upper-cased form of
the request (so every case variant of a catalog name resolves to that
entry), and a request whose upper-cased form matches no catalog name
exactly yields not-found — never a partial or fuzzy match. -/
theorem lookup_case_insensitive (s : List Char) :
    (∀ p ∈ posesList, toUpperCase p.name = p.name)
    ∧ (∀ t, toUpperCase s = toUpperCase t → lookupPose s = lookupPose t)
    ∧ (∀ p ∈ posesList, toUpperCase s = p.name → lookupPose s = some p)
    ∧ ((∀ p ∈ posesList, toUpperCase s ≠ p.name) → lookupPose s = none) := by
  refine ⟨by decide, ?_, ?_, ?_⟩
  · intro t h
    unfold lookupPose
    rw [h]
  · intro p hp h
    unfold lookupPose
    rw [h]
    fin_cases hp <;> decide
  · intro h
    unfold lookupPose
    rw [List.find?_eq_none]
    intro q hq hbe
    rw [beq_iff_eq] at hbe
    exact h q hq hbe.symm

/-- Witness for C7: the lower-case variant `fist` resolves to the FIST
catalog entry. -/
theorem lookup_case_insensitive_witness :
    (fistPose ∈ posesList ∧ toUpperCase fistCmd = fistPose.name)
    ∧ lookupPose fistCmd = some fistPose :=
  ⟨⟨by decide, by decide⟩,
    (lookup_case_insensitive fistCmd).2.2.1 fistPose (by decide) (by decide)⟩
